import Mathlib

/-!
Verification of the AvWX-Lite METAR decoding core (`src/utils.ts`) against its
natural-language specification.  JavaScript numbers are modelled as `ℚ` (or `ℤ`
for fields that only ever hold integers), absent values as `Option`, and the
relevant JavaScript built-ins (`parseInt`, `parseFloat`, `toFixed`,
`Math.round`, `Date` parsing, `String.prototype.includes`, `split`) as
executable Lean functions defined below.
-/

/-- Model of `Array.prototype` style prefix test on character lists:
`listStartsWith s p` is true when `p` is an initial segment of `s`. -/
def listStartsWith : List Char → List Char → Bool
  | _, [] => true
  | [], _ :: _ => false
  | a :: s, b :: p => a = b && listStartsWith s p

/-- Model of JavaScript `String.prototype.includes` on character lists:
true when `p` occurs contiguously inside `s`. -/
def listHasSub : List Char → List Char → Bool
  | [], p => p.isEmpty
  | a :: s, p => listStartsWith (a :: s) p || listHasSub s p

/-- Model of JavaScript `String.prototype.startsWith`. -/
def strStartsWith (s p : String) : Bool :=
  listStartsWith s.data p.data

/-- Model of JavaScript `String.prototype.includes`. -/
def strIncludes (s p : String) : Bool :=
  listHasSub s.data p.data

/-- Model of JavaScript `String.prototype.endsWith`. -/
def strEndsWith (s p : String) : Bool :=
  listStartsWith s.data.reverse p.data.reverse

/-- Model of `String.prototype.substring(n)`: drop the first `n` characters. -/
def strDropChars (s : String) (n : ℕ) : String :=
  ⟨s.data.drop n⟩

/-- Split a character list at every occurrence of `sep`, keeping empty
segments, as JavaScript `String.prototype.split` does for a one-character
separator. -/
def splitOnCharFR (sep : Char) (cs : List Char) : List (List Char) :=
  cs.foldr
    (fun c acc =>
      match acc with
      | g :: rest => if c = sep then [] :: g :: rest else (c :: g) :: rest
      | [] => [[]])
    [[]]

/-- Model of JavaScript `String.prototype.split` with a one-character
separator. -/
def strSplitChar (s : String) (sep : Char) : List String :=
  (splitOnCharFR sep s.data).map (⟨·⟩)

/-- Model of `Array.prototype.join`. -/
def joinSep (sep : String) : List String → String
  | [] => ""
  | [s] => s
  | s :: ss => s ++ sep ++ joinSep sep ss

/-- Numeric value of a decimal digit character. -/
def digitVal (c : Char) : ℕ :=
  c.toNat - 48

/-- Value of a list of decimal digit characters, most significant first. -/
def digitsVal (cs : List Char) : ℕ :=
  cs.foldl (fun acc c => acc * 10 + digitVal c) 0

/-- Model of JavaScript `parseInt(s, 10)` on the strings arising here: an
optional sign followed by a maximal run of leading digits; `none` models the
`NaN` result when no digit is found. -/
def jsParseInt (s : String) : Option ℤ :=
  let signAndRest : ℤ × List Char :=
    match s.data with
    | '-' :: t => (-1, t)
    | '+' :: t => (1, t)
    | cs => (1, cs)
  let ds := signAndRest.2.takeWhile Char.isDigit
  if ds.isEmpty then none else some (signAndRest.1 * (digitsVal ds : ℤ))

/-- Model of JavaScript `parseFloat` on the strings arising here: an optional
sign, leading digits, and an optional fraction part; `none` models `NaN`. -/
def jsParseFloat (s : String) : Option ℚ :=
  let signAndRest : ℚ × List Char :=
    match s.data with
    | '-' :: t => (-1, t)
    | '+' :: t => (1, t)
    | cs => (1, cs)
  let ip := signAndRest.2.takeWhile Char.isDigit
  let rest := signAndRest.2.dropWhile Char.isDigit
  let fp :=
    match rest with
    | '.' :: t => t.takeWhile Char.isDigit
    | _ => []
  if ip.isEmpty && fp.isEmpty then none
  else some (signAndRest.1 * ((digitsVal ip : ℚ) + (digitsVal fp : ℚ) / (10 ^ fp.length)))

/-- Model of JavaScript number-to-string coercion, exact on integral values
(the only values the formatted fields take in the theorems below);
non-integral rationals render as `num/den`, which no theorem depends on. -/
def jsNumToString (q : ℚ) : String :=
  if q.den = 1 then toString q.num else toString q.num ++ "/" ++ toString q.den

/-- Model of JavaScript `Math.round`: round half toward positive infinity. -/
def jsRound (q : ℚ) : ℤ :=
  ⌊q + 1 / 2⌋

/-- Left-pad the decimal rendering of `m` with zeros to `dp` characters,
for the fraction part of `toFixed`. -/
def padZeros (dp : ℕ) (m : ℕ) : String :=
  let s := toString m
  ⟨List.replicate (dp - s.length) '0'⟩ ++ s

/-- Model of JavaScript `Number.prototype.toFixed(dp)` for the non-negative
values it is applied to here. -/
def jsToFixed (dp : ℕ) (q : ℚ) : String :=
  let p : ℤ := 10 ^ dp
  let n : ℤ := jsRound (q * (p : ℚ))
  let whole := Int.fdiv n p
  toString whole ++ "." ++ padZeros dp (n - whole * p).natAbs

/-- Model of JavaScript `String.prototype.padStart(2, "0")` applied to a
number rendering. -/
def padLeft2 (n : ℤ) : String :=
  let s := toString n
  if s.length < 2 then "0" ++ s else s

/-- Model of JavaScript object property assignment on a string-keyed object
kept as an insertion-ordered association list: assigning to an existing key
overwrites its value in place, otherwise the pair is appended. -/
def objSet (m : List (String × String)) (k v : String) : List (String × String) :=
  match m with
  | [] => [(k, v)]
  | (k', v') :: rest => if k' = k then (k, v) :: rest else (k', v') :: objSet rest k v

/-- Property lookup on the association-list object model. -/
def objGet (m : List (String × String)) (k : String) : Option String :=
  match m with
  | [] => none
  | (k', v') :: rest => if k' = k then some v' else objGet rest k

/-- Replace the first occurrence of character `c` in a list by the list `r`,
as JavaScript `String.prototype.replace` with a string pattern does. -/
def replaceFirstCharList : List Char → Char → List Char → List Char
  | [], _, _ => []
  | a :: rest, c, r => if a = c then r ++ rest else a :: replaceFirstCharList rest c r

/-- Model of JavaScript `String.prototype.replace(c, r)` for a one-character
pattern (replaces the first occurrence only). -/
def strReplaceFirstChar (s : String) (c : Char) (r : String) : String :=
  ⟨replaceFirstCharList s.data c r.data⟩

/-- Gregorian leap-year test. -/
def isLeapYear (y : ℤ) : Bool :=
  Int.emod y 4 = 0 && (Int.emod y 100 ≠ 0 || Int.emod y 400 = 0)

/-- Number of days in month `m` (1–12) of year `y`. -/
def daysInMonth (y : ℤ) (m : ℕ) : ℕ :=
  if m = 2 then (if isLeapYear y then 29 else 28)
  else if m = 4 ∨ m = 6 ∨ m = 9 ∨ m = 11 then 30
  else 31

/-- Days between 1970-01-01 and the civil date `y-m-d` (proleptic Gregorian,
floor-division arithmetic valid for every year). -/
def daysFromCivil (y m d : ℤ) : ℤ :=
  let y' := if m ≤ 2 then y - 1 else y
  let era := Int.fdiv y' 400
  let yoe := y' - era * 400
  let mp := Int.emod (m + 9) 12
  let doy := Int.fdiv (153 * mp + 2) 5 + d - 1
  let doe := yoe * 365 + Int.fdiv yoe 4 - Int.fdiv yoe 100 + doy
  era * 146097 + doe - 719468

/-- Model of JavaScript `new Date(s).getTime()` restricted to the ISO-8601
UTC profile `YYYY-MM-DDTHH:MM:SSZ` used by the weather API's `observed`
field; every other shape yields `none`, the model of an Invalid Date.
The result is epoch milliseconds. -/
def jsParseDate (s : String) : Option ℤ :=
  match s.data with
  | [y1, y2, y3, y4, '-', mo1, mo2, '-', d1, d2, 'T',
     h1, h2, ':', mi1, mi2, ':', s1, s2, 'Z'] =>
    if ([y1, y2, y3, y4, mo1, mo2, d1, d2, h1, h2, mi1, mi2, s1, s2].all Char.isDigit) then
      let y : ℤ := (digitsVal [y1, y2, y3, y4] : ℤ)
      let mo := digitsVal [mo1, mo2]
      let da := digitsVal [d1, d2]
      let hh := digitsVal [h1, h2]
      let mi := digitsVal [mi1, mi2]
      let ss := digitsVal [s1, s2]
      if 1 ≤ mo ∧ mo ≤ 12 ∧ 1 ≤ da ∧ da ≤ daysInMonth y mo ∧ hh ≤ 23 ∧ mi ≤ 59 ∧ ss ≤ 59 then
        some (daysFromCivil y (mo : ℤ) (da : ℤ) * 86400000
          + (hh : ℤ) * 3600000 + (mi : ℤ) * 60000 + (ss : ℤ) * 1000)
      else none
    else none
  | _ => none

/-- `utils.ts`: the shared "ensure UTC" step — append `'Z'` unless the
timestamp already ends with it. -/
def ensureUtcZ (s : String) : String :=
  if strEndsWith s "Z" then s else s ++ "Z"

/-- `types.ts` `CheckWxWind` (degrees, speeds and gusts are the integral
knot/degree values the API reports). -/
structure CheckWxWind where
  degrees : ℤ
  speed_kts : ℤ
  gust_kts : Option ℤ

/-- `types.ts` `CheckWxVisibility`. -/
structure CheckWxVisibility where
  miles : String
  miles_float : Option ℚ
  meters : Option String
  meters_float : Option ℚ

/-- `types.ts` `CheckWxCloud` (also used for the ceiling, which extends it);
base heights are the integral foot values the API reports. -/
structure CheckWxCloud where
  code : String
  text : String
  base_feet_agl : Option ℤ

/-- `types.ts` `CheckWxTemperature`. -/
structure CheckWxTemperature where
  celsius : ℚ
  fahrenheit : ℚ

/-- `types.ts` `CheckWxBarometer`. -/
structure CheckWxBarometer where
  hg : ℚ
  hpa : ℚ

/-- `types.ts` `CheckWxStationInfo` (only the name is consumed by the core). -/
structure CheckWxStationInfo where
  name : String

/-- `types.ts` `CheckWxMetar`: the raw observation record consumed by
`processMetarData`. -/
structure CheckWxMetar where
  icao : String
  observed : String
  raw_text : String
  station : Option CheckWxStationInfo
  wind : Option CheckWxWind
  visibility : Option CheckWxVisibility
  ceiling : Option CheckWxCloud
  clouds : Option (List CheckWxCloud)
  temperature : Option CheckWxTemperature
  dewpoint : Option CheckWxTemperature
  barometer : Option CheckWxBarometer
  flight_category : Option String
  remarks : Option String

/-- `types.ts` `DecodedRemarks`: the plain-language echo plus the decoded
mapping, kept as an insertion-ordered association list. -/
structure DecodedRemarks where
  plainLanguage : String
  decoded : List (String × String)
deriving DecidableEq

/-- `types.ts` `DecodedMetar`, restricted to the fields the `utils.ts`
variant under `src/` actually produces. -/
structure DecodedMetar where
  airportName : String
  icao : String
  observedTime : String
  reportAgeMinutes : ℤ
  flightCategory : String
  rawMetar : String
  wind : String
  visibility : String
  ceilingAndClouds : String
  temperature : String
  dewpoint : String
  altimeter : String
  remarks : DecodedRemarks

/-- JavaScript `a || b` on an optional string: `b` when `a` is absent or
empty (the two falsy string cases), else the string itself. -/
def jsOrStr (a : Option String) (b : String) : String :=
  match a with
  | some s => if s = "" then b else s
  | none => b

/-- `utils.ts` `calculateReportAge`: age of the report in whole minutes,
never negative; the current wall-clock time (epoch milliseconds) is passed
explicitly. -/
def calculateReportAge (observedTimeString : String) (nowMs : ℤ) : ℤ :=
  let utcString := ensureUtcZ observedTimeString
  match jsParseDate utcString with
  | none => 0
  | some observedMs =>
    let diffMs := nowMs - observedMs
    let ageMinutes := jsRound ((diffMs : ℚ) / (1000 * 60))
    max 0 ageMinutes

/-- `utils.ts` `formatObservedTime`: dual local/UTC display string; the OS
local timezone is modelled as an explicit offset from UTC in minutes. -/
def formatObservedTime (observedTimeString : String) (tzOffsetMinutes : ℤ) : String :=
  let utcString := ensureUtcZ observedTimeString
  match jsParseDate utcString with
  | none => "Invalid Date"
  | some t =>
    let totalUtcMinutes := Int.fdiv t 60000
    let localTotal := totalUtcMinutes + tzOffsetMinutes
    let localHours := Int.emod (Int.fdiv localTotal 60) 24
    let localMinutes := Int.emod localTotal 60
    let hours12 := if Int.emod localHours 12 = 0 then (12 : ℤ) else Int.emod localHours 12
    let ampm := if 12 ≤ localHours then "PM" else "AM"
    let localTimeString := toString hours12 ++ ":" ++ padLeft2 localMinutes ++ " " ++ ampm
    let utcHours := padLeft2 (Int.emod (Int.fdiv t 3600000) 24)
    let utcMinutes := padLeft2 (Int.emod totalUtcMinutes 60)
    localTimeString ++ " (Local) / " ++ utcHours ++ ":" ++ utcMinutes ++ "Z"

/-- `utils.ts` `formatWind`. -/
def formatWind (wind : Option CheckWxWind) : String :=
  match wind with
  | none => "Variable, Calm"
  | some w =>
    let gustSuffix :=
      match w.gust_kts with
      | some g => if g = 0 then "" else ", gusting to " ++ toString g ++ " knots"
      | none => ""
    let windStr := toString w.degrees ++ "° at " ++ toString w.speed_kts ++ " knots" ++ gustSuffix
    if w.degrees = 0 ∧ w.speed_kts = 0 then "Calm"
    else if w.degrees = 0 then "Variable at " ++ toString w.speed_kts ++ " knots" ++ gustSuffix
    else windStr

/-- `utils.ts` `formatVisibility`, step one: `visibility.miles_float ??
parseFloat(visibility.miles)`; `none` models the `NaN` outcome. -/
def resolvedMiles (v : CheckWxVisibility) : Option ℚ :=
  match v.miles_float with
  | some x => some x
  | none => jsParseFloat v.miles

/-- `utils.ts` `formatVisibility`, trailing step: the parenthesised
meters-equivalent appended when `visibility.meters_float` is truthy. -/
def metersSuffix (mf : Option ℚ) : String :=
  match mf with
  | some m => if m = 0 then "" else " (" ++ jsNumToString m ++ " meters)"
  | none => ""

/-- `utils.ts` `formatVisibility`. -/
def formatVisibility (visibility : Option CheckWxVisibility) : String :=
  match visibility with
  | none => "Not Reported"
  | some v =>
    match resolvedMiles v with
    | none => "Not Reported"
    | some miles =>
      let visStr := v.miles ++ " statute mile(s)"
      let visStr := if miles ≥ 10 then "10+ statute miles (Clear)" else visStr
      visStr ++ metersSuffix v.meters_float

/-- One rendered cloud layer inside `formatCeilingAndClouds`:
`"<text> at <height> ft AGL"` when the base height is truthy. -/
def cloudLayerString (layer : CheckWxCloud) : String :=
  layer.text ++
    match layer.base_feet_agl with
    | some h => if h = 0 then "" else " at " ++ toString h ++ " ft AGL"
    | none => ""

/-- `utils.ts` `formatCeilingAndClouds`, ceiling merge step: append
`" (Ceiling)"` to the first layer string containing the pattern (the
`findIndex` + in-place mutation of the source). -/
def annotateFirst : List String → String → List String
  | [], _ => []
  | l :: rest, p => if strIncludes l p then (l ++ " (Ceiling)") :: rest else l :: annotateFirst rest p

/-- Rendering of a possibly-absent height inside a template literal:
JavaScript prints `undefined` for a missing field. -/
def renderOptHeight (h : Option ℤ) : String :=
  match h with
  | some v => toString v
  | none => "undefined"

/-- `utils.ts` `formatCeilingAndClouds`. -/
def formatCeilingAndClouds (ceiling : Option CheckWxCloud) (clouds : Option (List CheckWxCloud)) :
    String :=
  let reportedLayers : List String :=
    match clouds with
    | some cs => cs.map cloudLayerString
    | none => []
  let reportedLayers :=
    match ceiling with
    | some c =>
      match c.base_feet_agl with
      | some h =>
        if h = 0 then reportedLayers
        else
          let ceilingDesc := c.text ++ " at " ++ toString h ++ " ft AGL (Ceiling)"
          let pat := toString h ++ " ft AGL"
          if !(reportedLayers.any (fun l => strIncludes l pat)) then
            reportedLayers ++ [ceilingDesc]
          else
            annotateFirst reportedLayers pat
      | none => reportedLayers
    | none => reportedLayers
  if 0 < reportedLayers.length then joinSep "; " reportedLayers
  else
    match ceiling with
    | some c => c.text ++ " at " ++ renderOptHeight c.base_feet_agl ++ " ft AGL (Ceiling)"
    | none => "Clear below 12,000 ft"

/-- `utils.ts` `formatTempDew`. -/
def formatTempDew (temp : Option CheckWxTemperature) : String :=
  match temp with
  | none => "N/A"
  | some t => jsNumToString t.celsius ++ "°C (" ++ jsNumToString t.fahrenheit ++ "°F)"

/-- `utils.ts` `formatAltimeter`. -/
def formatAltimeter (barometer : Option CheckWxBarometer) : String :=
  match barometer with
  | none => "N/A"
  | some b =>
    if b.hg = 0 then jsNumToString b.hpa ++ " hPa"
    else jsToFixed 2 b.hg ++ " inHg (" ++ jsNumToString b.hpa ++ " hPa)"

/-- `utils.ts` `determineFlightCategory`. -/
def determineFlightCategory (visibility : Option CheckWxVisibility)
    (ceiling : Option CheckWxCloud) : String :=
  let visMiles : ℚ := (visibility.bind CheckWxVisibility.miles_float).getD 99
  let ceilFeet : ℤ := (ceiling.bind CheckWxCloud.base_feet_agl).getD 99999
  if visMiles ≥ 5 ∧ ceilFeet ≥ 3000 then "VFR"
  else if visMiles ≥ 3 ∧ ceilFeet ≥ 1000 then "MVFR"
  else if visMiles ≥ 1 ∧ ceilFeet ≥ 500 then "IFR"
  else if visMiles < 1 ∨ ceilFeet < 500 then "LIFR"
  else "Unknown"

/-- `utils.ts` `decodeRemarks`, precise temperature/dewpoint digits:
`parseInt(...)/10` rendered with `toFixed(1)`; an unparsable group renders
as `NaN` exactly as the JavaScript expression does. -/
def renderTenthC (s : String) : String :=
  match jsParseInt s with
  | some n => jsToFixed 1 ((n : ℚ) / 10)
  | none => "NaN"

/-- `utils.ts` `decodeRemarks`, the regular expression
`^PK WND (\d\x7b3\x7d)(\d\x7b2,3\x7d)\/(\d\x7b2\x7d)(\d\x7b2\x7d)$` as a
function returning the four capture groups. -/
def matchPkWnd (part : String) : Option (String × String × String × String) :=
  if strStartsWith part "PK WND " then
    match strSplitChar (strDropChars part 7) '/' with
    | [l, r] =>
      if (l.length = 5 ∨ l.length = 6) ∧ l.data.all Char.isDigit = true
          ∧ r.length = 4 ∧ r.data.all Char.isDigit = true then
        some (⟨l.data.take 3⟩, ⟨l.data.drop 3⟩, ⟨r.data.take 2⟩, ⟨r.data.drop 2⟩)
      else none
    | _ => none
  else none

/-- One side of the variable-visibility bound pattern `\d+\/?\d*`. -/
def visHalfOk (s : String) : Bool :=
  match strSplitChar s '/' with
  | [a] => !a.data.isEmpty && a.data.all Char.isDigit
  | [a, b] => !a.data.isEmpty && a.data.all Char.isDigit && b.data.all Char.isDigit
  | _ => false

/-- `utils.ts` `decodeRemarks`, the regular expression
`^VIS (\d+\/?\d*V\d+\/?\d*)$` as a function returning the capture group. -/
def matchVis (part : String) : Option String :=
  if strStartsWith part "VIS " then
    let rest := strDropChars part 4
    match strSplitChar rest 'V' with
    | [l, r] => if visHalfOk l && visHalfOk r then some rest else none
    | _ => none
  else none

/-- `utils.ts` `decodeRemarks`, body of the token loop: classify one
whitespace-delimited token and update the decoded mapping. -/
def decodeToken (decoded : List (String × String)) (part : String) :
    List (String × String) :=
  if part = "AO1" then
    objSet decoded "AutomatedObservationType"
      "Automated station without precipitation discriminator"
  else if part = "AO2" then
    objSet decoded "AutomatedObservationType"
      "Automated station with precipitation discriminator"
  else if strStartsWith part "SLP" then
    let slpDigits := strDropChars part 3
    if !slpDigits.data.isEmpty && slpDigits.data.all Char.isDigit then
      let pressureValue : ℤ := (digitsVal slpDigits.data : ℤ)
      let hpa : ℚ := (pressureValue : ℚ) / 10 + (if pressureValue < 500 then 1000 else 900)
      objSet decoded "SeaLevelPressure" (jsToFixed 1 hpa ++ " hPa")
    else
      objSet decoded "SeaLevelPressure" ("Unknown format (" ++ part ++ ")")
  else if strStartsWith part "T" ∧ part.length = 9 then
    let cs := part.data
    let tempSign := if cs.getD 1 ' ' = '1' then "-" else ""
    let dewSign := if cs.getD 5 ' ' = '1' then "-" else ""
    objSet decoded "PreciseTempDewpoint"
      ("Temp: " ++ tempSign ++ renderTenthC ⟨(cs.drop 2).take 3⟩
        ++ "°C, Dewpoint: " ++ dewSign ++ renderTenthC ⟨(cs.drop 6).take 3⟩ ++ "°C")
  else
    match matchPkWnd part with
    | some (dir, speed, hh, mm) =>
      objSet decoded "PeakWind"
        ("Peak wind " ++ dir ++ "° at " ++ speed ++ " knots occurred at "
          ++ hh ++ mm ++ " Zulu")
    | none =>
      match matchVis part with
      | some g =>
        objSet decoded "VariableVisibility"
          ("Visibility variable between " ++ strReplaceFirstChar g 'V' " and "
            ++ " statute miles")
      | none => decoded

/-- `utils.ts` `decodeRemarks`. -/
def decodeRemarks (remarksString : Option String) : DecodedRemarks :=
  let plainLanguage :=
    match remarksString with
    | some s => if s = "" then "No Remarks" else s
    | none => "No Remarks"
  match remarksString with
  | none => { plainLanguage := plainLanguage, decoded := [] }
  | some s =>
    if s = "" then { plainLanguage := plainLanguage, decoded := [] }
    else
      let parts := strSplitChar s ' '
      { plainLanguage := plainLanguage, decoded := parts.foldl decodeToken [] }

/-- `utils.ts` `processMetarData`; the current wall-clock time (epoch
milliseconds) and the OS timezone offset (minutes) are passed explicitly. -/
def processMetarData (metar : Option CheckWxMetar) (nowMs tzOffsetMinutes : ℤ) :
    Option DecodedMetar :=
  match metar with
  | none => none
  | some m =>
    let flightCategory := determineFlightCategory m.visibility m.ceiling
    some
      { airportName := jsOrStr (m.station.map CheckWxStationInfo.name) "Unknown Station"
        icao := m.icao
        observedTime := formatObservedTime m.observed tzOffsetMinutes
        reportAgeMinutes := calculateReportAge m.observed nowMs
        flightCategory := jsOrStr m.flight_category flightCategory
        rawMetar := m.raw_text
        wind := formatWind m.wind
        visibility := formatVisibility m.visibility
        ceilingAndClouds := formatCeilingAndClouds m.ceiling m.clouds
        temperature := formatTempDew m.temperature
        dewpoint := formatTempDew m.dewpoint
        altimeter := formatAltimeter m.barometer
        remarks := decodeRemarks m.remarks }

/-- The flight-category classifier exactly as the specification words it
(§4.2): strict descending-severity order with inclusive lower bounds, over
the already-defaulted visibility and ceiling values. -/
def specFlightCategory (visMiles : ℚ) (ceilFeet : ℤ) : String :=
  if visMiles ≥ 5 ∧ ceilFeet ≥ 3000 then "VFR"
  else if visMiles ≥ 3 ∧ ceilFeet ≥ 1000 then "MVFR"
  else if visMiles ≥ 1 ∧ ceilFeet ≥ 500 then "IFR"
  else "LIFR"

/-- Group a reversed digit list into blocks of three (thousands groups). -/
def chunk3 : List Char → List (List Char)
  | [] => []
  | a :: b :: c :: rest => [a, b, c] :: chunk3 rest
  | xs => [xs]

/-- Render an integer with `,` thousands separators, as JavaScript
`toLocaleString` does for integral values. -/
def withThousandsSeparators (n : ℤ) : String :=
  let grouped := (chunk3 (toString n.natAbs).data.reverse).map List.reverse
  let s := joinSep "," ((grouped.map (fun g => (⟨g⟩ : String))).reverse)
  if n < 0 then "-" ++ s else s

/-- Altitude formatting helper: thousands separators plus a trailing prime
mark, e.g. `2,438` followed by the prime. -/
def formatAltitude (n : ℤ) : String :=
  withThousandsSeparators n ++ "'"

/-- Modelled from the spec: the density-altitude estimator of §4.3.  The
repository's output type (`DecodedMetar.densityAltitude` in `types.ts`) and
the viewer both reference this computation, but the `utils` variant that
computes it is not among the source files, so the definition follows the
specification's algorithm verbatim: pressure altitude from elevation and
altimeter setting, ISA temperature at the 1.98 °C / 1000 ft lapse rate, then
the 120 ft/°C correction, rounded to the nearest foot and rendered with
thousands separators and a trailing prime mark; any missing input yields
`"N/A"`. -/
def calculateDensityAltitude (elevationFeet temperatureC altimeterInHg : Option ℚ) : String :=
  match elevationFeet, temperatureC, altimeterInHg with
  | some e, some t, some a =>
    let pressureAltitude := e + (2992 / 100 - a) * 1000
    let isaTemp := 15 - 198 / 100 * (pressureAltitude / 1000)
    let densityAltitude := pressureAltitude + 120 * (t - isaTemp)
    formatAltitude (jsRound densityAltitude)
  | _, _, _ => "N/A"

theorem objGet_objSet (m : List (String × String)) (k v : String) :
    objGet (objSet m k v) k = some v := by
  induction m with
  | nil => simp [objSet, objGet]
  | cons a rest ih =>
    rcases a with ⟨k', v'⟩
    by_cases h : k' = k
    · simp [objSet, objGet, h]
    · simp [objSet, objGet, h, ih]

theorem listStartsWith_append_self (p s : List Char) :
    listStartsWith (p ++ s) p = true := by
  induction p with
  | nil => cases s <;> rfl
  | cons a t ih => simp [listStartsWith, ih]

theorem strEndsWith_append (a b : String) : strEndsWith (a ++ b) b = true := by
  unfold strEndsWith
  rw [show (a ++ b).data = a.data ++ b.data from rfl, List.reverse_append]
  exact listStartsWith_append_self _ _

theorem decodeRemarks_decoded_of_ne (s : String) (h : s ≠ "") :
    (decodeRemarks (some s)).decoded = (strSplitChar s ' ').foldl decodeToken [] := by
  simp [decodeRemarks, h]

theorem decodeToken_slp (m : List (String × String)) (ds : String) :
    objGet (decodeToken m ("SLP" ++ ds)) "SeaLevelPressure" =
      if (!ds.data.isEmpty && ds.data.all Char.isDigit) = true then
        some (jsToFixed 1 ((digitsVal ds.data : ℚ) / 10
          + (if (digitsVal ds.data : ℤ) < 500 then 1000 else 900)) ++ " hPa")
      else some ("Unknown format (" ++ ("SLP" ++ ds) ++ ")") := by
  have hne1 : ("SLP" ++ ds) ≠ "AO1" := by
    intro h
    have h2 : ('S' :: 'L' :: 'P' :: ds.data) = ['A', 'O', '1'] := congrArg String.data h
    simp at h2
  have hne2 : ("SLP" ++ ds) ≠ "AO2" := by
    intro h
    have h2 : ('S' :: 'L' :: 'P' :: ds.data) = ['A', 'O', '2'] := congrArg String.data h
    simp at h2
  have hpre : strStartsWith ("SLP" ++ ds) "SLP" = true := by
    show listStartsWith ('S' :: 'L' :: 'P' :: ds.data) ['S', 'L', 'P'] = true
    simp [listStartsWith]
  have hdrop : strDropChars ("SLP" ++ ds) 3 = ds := rfl
  simp only [decodeToken, if_neg hne1, if_neg hne2, if_pos hpre, hdrop]
  by_cases hd : (!ds.data.isEmpty && ds.data.all Char.isDigit) = true
  · rw [if_pos hd, if_pos hd]
    exact objGet_objSet _ _ _
  · rw [if_neg hd, if_neg hd]
    exact objGet_objSet _ _ _

theorem jsToFixed_one_eq (q : ℚ) (n : ℤ) (h : jsRound (q * ((10 ^ 1 : ℤ) : ℚ)) = n) :
    jsToFixed 1 q
      = toString (Int.fdiv n (10 ^ 1)) ++ "."
        ++ padZeros 1 (n - Int.fdiv n (10 ^ 1) * 10 ^ 1).natAbs := by
  simp only [jsToFixed]
  rw [h]

/-- C1: for every visibility input (defaulting to 99 statute miles when the
visibility field or its `miles_float` is absent) and every ceiling height
(defaulting to 99999 ft when absent), `determineFlightCategory` equals the
reference definition evaluated in strict descending-severity order
(VFR / MVFR / IFR / LIFR with inclusive lower bounds), the boundary pairs
5/3000, 3/1000 and 1/500 land in the higher category, and `"Unknown"` is
never returned for any input of the model. -/
theorem determineFlightCategory_spec :
    (∀ (visibility : Option CheckWxVisibility) (ceiling : Option CheckWxCloud),
        determineFlightCategory visibility ceiling
          = specFlightCategory ((visibility.bind CheckWxVisibility.miles_float).getD 99)
              ((ceiling.bind CheckWxCloud.base_feet_agl).getD 99999)
        ∧ determineFlightCategory visibility ceiling ≠ "Unknown")
  ∧ determineFlightCategory (some ⟨"5", some 5, none, none⟩)
      (some ⟨"BKN", "Broken", some 3000⟩) = "VFR"
  ∧ determineFlightCategory (some ⟨"3", some 3, none, none⟩)
      (some ⟨"BKN", "Broken", some 1000⟩) = "MVFR"
  ∧ determineFlightCategory (some ⟨"1", some 1, none, none⟩)
      (some ⟨"OVC", "Overcast", some 500⟩) = "IFR" := by
  refine ⟨fun visibility ceiling => ?_, by decide, by decide, by decide⟩
  simp only [determineFlightCategory, specFlightCategory]
  split_ifs with h1 h2 h3 h4
  · exact ⟨rfl, by decide⟩
  · exact ⟨rfl, by decide⟩
  · exact ⟨rfl, by decide⟩
  · exact ⟨rfl, by decide⟩
  · exfalso
    rcases not_or.mp h4 with ⟨hv, hc⟩
    exact h3 ⟨not_lt.mp hv, not_lt.mp hc⟩

/-- C3: the remarks decoder splits on single spaces before classifying
tokens, so the peak-wind and variable-visibility patterns — which require a
space inside the token (`PK WND ...`, `VIS ...`) — can never match a
split-off token: on the remarks string `"PK WND 28045/1515 VIS 1/2V2"` the
decoded mapping stays empty, even though `decodeToken` applied to the
unsplit tokens produces exactly the entries the specification describes. -/
theorem decodeRemarks_peakWind_dead :
    (decodeRemarks (some "PK WND 28045/1515 VIS 1/2V2")).decoded = []
  ∧ objGet (decodeToken [] "PK WND 28045/1515") "PeakWind"
      = some "Peak wind 280° at 45 knots occurred at 1515 Zulu"
  ∧ objGet (decodeToken [] "VIS 1/2V2") "VariableVisibility"
      = some "Visibility variable between 1/2 and 2 statute miles" := by
  exact ⟨by decide, by decide, by decide⟩

/-- C4: the ceiling merge in `formatCeilingAndClouds` uses a substring test
(`includes("<height> ft AGL")`), so a ceiling at 500 ft is merged into an
already-listed layer at 1500 ft — whose rendering contains `"500 ft AGL"`
as a suffix — instead of being appended as its own entry as the claim
requires for a ceiling whose height matches no listed layer. -/
theorem formatCeilingAndClouds_substring_merge :
    formatCeilingAndClouds (some ⟨"OVC", "Overcast", some 500⟩)
        (some [⟨"SCT", "Scattered", some 1500⟩])
      = "Scattered at 1500 ft AGL (Ceiling)"
  ∧ formatCeilingAndClouds (some ⟨"OVC", "Overcast", some 500⟩)
        (some [⟨"SCT", "Scattered", some 1500⟩])
      ≠ "Scattered at 1500 ft AGL; Overcast at 500 ft AGL (Ceiling)" := by
  exact ⟨by decide, by decide⟩

/-- C5 counterexample: for the present-but-empty remarks string the
plain-language field is the `"No Remarks"` sentinel, not the original input
verbatim, refuting the claim for the empty string. -/
theorem decodeRemarks_empty_cex :
    (decodeRemarks (some "")).plainLanguage = "No Remarks"
  ∧ (decodeRemarks (some "")).plainLanguage ≠ "" := by
  exact ⟨by decide, by decide⟩

/-- C5 amended: for every present nonempty remarks string the plain-language
field equals the original input verbatim; the `"No Remarks"` sentinel is
produced exactly when the remarks field is absent or the empty string. -/
theorem decodeRemarks_plainLanguage_amended :
    ∀ s : String, s ≠ "" →
      (decodeRemarks (some s)).plainLanguage = s
    ∧ (decodeRemarks none).plainLanguage = "No Remarks"
    ∧ (decodeRemarks (some "")).plainLanguage = "No Remarks" := by
  intro s h
  refine ⟨?_, by decide, by decide⟩
  simp [decodeRemarks, h]

/-- C5 witness: the amended statement at the concrete remarks string
`"AO2"`. -/
theorem decodeRemarks_plainLanguage_amended_witness :
    (decodeRemarks (some "AO2")).plainLanguage = "AO2"
  ∧ (decodeRemarks none).plainLanguage = "No Remarks"
  ∧ (decodeRemarks (some "")).plainLanguage = "No Remarks" :=
  decodeRemarks_plainLanguage_amended "AO2" (by decide)

/-- C6 counterexample: a visibility of 12 statute miles with a present
nonzero meters-equivalent float renders as `"10+ statute miles (Clear)
(19312 meters)"`, not as the bare `"10+ statute miles (Clear)"` the claim
requires for every input with miles ≥ 10. -/
theorem formatVisibility_meters_cex :
    resolvedMiles ⟨"12", some 12, none, some 19312⟩ = some 12
  ∧ formatVisibility (some ⟨"12", some 12, none, some 19312⟩)
      ≠ "10+ statute miles (Clear)" := by
  exact ⟨by decide, by decide⟩

/-- C6 amended: for every visibility input whose resolved miles value is at
least 10, the formatter yields `"10+ statute miles (Clear)"` followed by
the meters-equivalent suffix — the empty string when `meters_float` is
absent or zero, else the parenthesised meters rendering. -/
theorem formatVisibility_ten_plus_amended :
    ∀ (v : CheckWxVisibility) (m : ℚ), resolvedMiles v = some m → 10 ≤ m →
      formatVisibility (some v) = "10+ statute miles (Clear)" ++ metersSuffix v.meters_float := by
  intro v m h hm
  simp only [formatVisibility]
  rw [h]
  simp [ge_iff_le, hm]

/-- C6 witness: the amended statement at a concrete input with
`miles_float = 12` and `meters_float = 19312`. -/
theorem formatVisibility_ten_plus_amended_witness :
    formatVisibility (some ⟨"12", some 12, none, some 19312⟩)
      = "10+ statute miles (Clear)" ++ metersSuffix (some 19312) :=
  formatVisibility_ten_plus_amended ⟨"12", some 12, none, some 19312⟩ 12
    (by decide) (by decide)

/-- C10 counterexample: a calm-wind record carrying a strictly positive
gust (`degrees = 0`, `speed_kts = 0`, `gust_kts = 50`) formats as `"Calm"`
with no gust suffix, refuting the claim that every strictly positive gust
appends the suffix. -/
theorem formatWind_calm_gust_cex :
    formatWind (some ⟨0, 0, some 50⟩) = "Calm"
  ∧ strIncludes (formatWind (some ⟨0, 0, some 50⟩)) ", gusting to" = false := by
  exact ⟨by decide, by decide⟩

/-- C10 amended: a gust of exactly 0 knots is treated the same as an absent
gust; a strictly positive gust appends the `", gusting to <g> knots"`
suffix except in the calm branch (`degrees = 0` and `speed_kts = 0`), where
the output is the fixed string `"Calm"` without any suffix. -/
theorem formatWind_gust_amended :
    ∀ w : CheckWxWind,
      formatWind (some { w with gust_kts := some 0 })
        = formatWind (some { w with gust_kts := none })
    ∧ (w.degrees = 0 → w.speed_kts = 0 → formatWind (some w) = "Calm")
    ∧ (∀ g : ℤ, w.gust_kts = some g → 0 < g → ¬(w.degrees = 0 ∧ w.speed_kts = 0) →
        strEndsWith (formatWind (some w)) (", gusting to " ++ toString g ++ " knots") = true) := by
  intro w
  refine ⟨rfl, fun h1 h2 => by simp [formatWind, h1, h2], fun g hg hpos hnc => ?_⟩
  have hgne : g ≠ 0 := ne_of_gt hpos
  simp only [formatWind, hg]
  rw [if_neg hgne]
  by_cases hd : w.degrees = 0
  · have hs : ¬w.speed_kts = 0 := fun h => hnc ⟨hd, h⟩
    rw [if_neg (fun hh => hs hh.2), if_pos hd]
    exact strEndsWith_append _ _
  · rw [if_neg (fun hh => hd hh.1), if_neg hd]
    exact strEndsWith_append _ _

/-- C10 witness: the amended statement at a concrete wind of 270° at
10 knots gusting 25. -/
theorem formatWind_gust_amended_witness :
    strEndsWith (formatWind (some ⟨270, 10, some 25⟩))
      (", gusting to " ++ toString (25 : ℤ) ++ " knots") = true :=
  (formatWind_gust_amended ⟨270, 10, some 25⟩).2.2 25 rfl (by decide) (by decide)

/-- C7: a remark token `SLP` followed by a nonempty all-digit remainder
decodes as sea-level pressure `digits/10 + 1000` hPa below 500 and
`digits/10 + 900` hPa at 500 or more, rendered to one decimal place with
unit `hPa` (`SLP123` gives `"1012.3 hPa"`, `SLP876` gives `"987.6 hPa"`);
a remainder containing a non-digit is reported as an unrecognized format
echoing the raw token. -/
theorem decodeRemarks_slp_spec :
    (∀ (m : List (String × String)) (ds : String),
        ds.data ≠ [] → ds.data.all Char.isDigit = true →
        objGet (decodeToken m ("SLP" ++ ds)) "SeaLevelPressure"
          = some (jsToFixed 1 ((digitsVal ds.data : ℚ) / 10
              + (if (digitsVal ds.data : ℤ) < 500 then 1000 else 900)) ++ " hPa"))
  ∧ (∀ (m : List (String × String)) (ds : String),
        (ds.data.any fun c => !c.isDigit) = true →
        objGet (decodeToken m ("SLP" ++ ds)) "SeaLevelPressure"
          = some ("Unknown format (" ++ ("SLP" ++ ds) ++ ")"))
  ∧ objGet (decodeRemarks (some "SLP123")).decoded "SeaLevelPressure" = some "1012.3 hPa"
  ∧ objGet (decodeRemarks (some "SLP876")).decoded "SeaLevelPressure" = some "987.6 hPa" := by
  have hgen : ∀ (m : List (String × String)) (ds : String),
      ds.data ≠ [] → ds.data.all Char.isDigit = true →
      objGet (decodeToken m ("SLP" ++ ds)) "SeaLevelPressure"
        = some (jsToFixed 1 ((digitsVal ds.data : ℚ) / 10
            + (if (digitsVal ds.data : ℤ) < 500 then 1000 else 900)) ++ " hPa") := by
    intro m ds h1 h2
    rw [decodeToken_slp]
    rw [if_pos (by simp [List.isEmpty_iff, h1, h2])]
  refine ⟨hgen, ?_, ?_, ?_⟩
  · intro m ds h
    rw [decodeToken_slp]
    have hall : ds.data.all Char.isDigit = false := by
      rcases List.any_eq_true.mp h with ⟨c, hc, hcd⟩
      rcases hx : ds.data.all Char.isDigit with _ | _
      · rfl
      · exact absurd (List.all_eq_true.mp hx c hc) (by simpa using hcd)
    rw [if_neg (by simp [hall])]
  · have e0 : (decodeRemarks (some "SLP123")).decoded
        = (strSplitChar "SLP123" ' ').foldl decodeToken [] :=
      decodeRemarks_decoded_of_ne _ (by decide)
    have e1 : (strSplitChar "SLP123" ' ').foldl decodeToken []
        = decodeToken [] ("SLP" ++ "123") := by
      rw [show strSplitChar "SLP123" ' ' = ["SLP" ++ "123"] from by decide]
      rfl
    rw [e0, e1, hgen [] "123" (by decide) (by decide)]
    rw [show digitsVal "123".data = 123 from by decide]
    rw [if_pos (by decide : ((123 : ℕ) : ℤ) < 500)]
    rw [jsToFixed_one_eq _ 10123 (by unfold jsRound; push_cast; norm_num [Int.floor_eq_iff])]
    decide
  · have e0 : (decodeRemarks (some "SLP876")).decoded
        = (strSplitChar "SLP876" ' ').foldl decodeToken [] :=
      decodeRemarks_decoded_of_ne _ (by decide)
    have e1 : (strSplitChar "SLP876" ' ').foldl decodeToken []
        = decodeToken [] ("SLP" ++ "876") := by
      rw [show strSplitChar "SLP876" ' ' = ["SLP" ++ "876"] from by decide]
      rfl
    rw [e0, e1, hgen [] "876" (by decide) (by decide)]
    rw [show digitsVal "876".data = 876 from by decide]
    rw [if_neg (by decide : ¬((876 : ℕ) : ℤ) < 500)]
    rw [jsToFixed_one_eq _ 9876 (by unfold jsRound; push_cast; norm_num [Int.floor_eq_iff])]
    decide

/-- C7 witness: the general statement applied at the concrete tokens
`SLP042` (all-digit remainder) and `SLP12A` (non-digit remainder). -/
theorem decodeRemarks_slp_spec_witness :
    objGet (decodeToken [] ("SLP" ++ "042")) "SeaLevelPressure"
      = some (jsToFixed 1 ((digitsVal "042".data : ℚ) / 10
          + (if (digitsVal "042".data : ℤ) < 500 then 1000 else 900)) ++ " hPa")
  ∧ objGet (decodeToken [] ("SLP" ++ "12A")) "SeaLevelPressure"
      = some ("Unknown format (" ++ ("SLP" ++ "12A") ++ ")") :=
  ⟨decodeRemarks_slp_spec.1 [] "042" (by decide) (by decide),
   decodeRemarks_slp_spec.2.1 [] "12A" (by decide)⟩

/-- C2: whenever elevation, temperature and altimeter setting are all
present, the density-altitude string equals the spec formula — pressure
altitude `e + (29.92 − a) × 1000`, ISA temperature
`15 − 1.98 × (pressureAltitude / 1000)`, density altitude
`pressureAltitude + 120 × (t − isaTemp)` — rounded to the nearest foot and
rendered with thousands separators and a trailing prime mark; any missing
input yields `"N/A"`; the reference point elevation 1000 ft, 25 °C,
29.92 inHg renders exactly as the spec's `2,438` feet example. -/
theorem calculateDensityAltitude_spec :
    (∀ e t a : ℚ,
        calculateDensityAltitude (some e) (some t) (some a)
          = formatAltitude (jsRound
              ((e + (2992 / 100 - a) * 1000)
                + 120 * (t - (15 - 198 / 100 * ((e + (2992 / 100 - a) * 1000) / 1000))))))
  ∧ (∀ t a : Option ℚ, calculateDensityAltitude none t a = "N/A")
  ∧ (∀ e a : ℚ, calculateDensityAltitude (some e) none (some a) = "N/A")
  ∧ (∀ e t : ℚ, calculateDensityAltitude (some e) (some t) none = "N/A")
  ∧ calculateDensityAltitude (some 1000) (some 25) (some (2992 / 100)) = "2,438'" := by
  have hgen : ∀ e t a : ℚ,
      calculateDensityAltitude (some e) (some t) (some a)
        = formatAltitude (jsRound
            ((e + (2992 / 100 - a) * 1000)
              + 120 * (t - (15 - 198 / 100 * ((e + (2992 / 100 - a) * 1000) / 1000))))) :=
    fun e t a => rfl
  refine ⟨hgen, fun t a => by cases t <;> cases a <;> rfl, fun e a => rfl, fun e t => rfl, ?_⟩
  rw [hgen 1000 25 (2992 / 100)]
  rw [show jsRound
      (((1000 : ℚ) + (2992 / 100 - 2992 / 100) * 1000)
        + 120 * (25 - (15 - 198 / 100 * (((1000 : ℚ) + (2992 / 100 - 2992 / 100) * 1000) / 1000))))
      = 2438 from by unfold jsRound; norm_num [Int.floor_eq_iff]]
  decide

/-- C8 counterexample: an observation whose upstream `flight_category`
field is the empty string decodes to the locally derived category
(`"VFR"` here), not to the upstream empty string, refuting the claim for
the empty-string value. -/
theorem processMetarData_upstream_empty_cex :
    (processMetarData (some
        { icao := "KLAX", observed := "x", raw_text := "r", station := none, wind := none,
          visibility := none, ceiling := none, clouds := none, temperature := none,
          dewpoint := none, barometer := none, flight_category := some "", remarks := none })
        0 0).map DecodedMetar.flightCategory ≠ some "" := by
  decide

/-- C8 amended: the upstream `flight_category` takes precedence exactly
when it is present and nonempty; when it is absent or the empty string the
decoded summary carries the locally derived category. -/
theorem processMetarData_flightCategory_amended :
    ∀ (m : CheckWxMetar) (nowMs tzOffsetMinutes : ℤ),
      (m.flight_category = none →
        (processMetarData (some m) nowMs tzOffsetMinutes).map DecodedMetar.flightCategory
          = some (determineFlightCategory m.visibility m.ceiling))
    ∧ (m.flight_category = some "" →
        (processMetarData (some m) nowMs tzOffsetMinutes).map DecodedMetar.flightCategory
          = some (determineFlightCategory m.visibility m.ceiling))
    ∧ (∀ fc : String, m.flight_category = some fc → fc ≠ "" →
        (processMetarData (some m) nowMs tzOffsetMinutes).map DecodedMetar.flightCategory
          = some fc) := by
  intro m nowMs tz
  refine ⟨fun h => ?_, fun h => ?_, fun fc h hne => ?_⟩
  · simp [processMetarData, jsOrStr, h]
  · simp [processMetarData, jsOrStr, h]
  · simp [processMetarData, jsOrStr, h, hne]

/-- C8 witness: the amended statement at a concrete observation carrying
the nonempty upstream category `"LIFR"`. -/
theorem processMetarData_flightCategory_amended_witness :
    (processMetarData (some
        { icao := "KLAX", observed := "x", raw_text := "r", station := none, wind := none,
          visibility := none, ceiling := none, clouds := none, temperature := none,
          dewpoint := none, barometer := none, flight_category := some "LIFR", remarks := none })
        0 0).map DecodedMetar.flightCategory = some "LIFR" :=
  (processMetarData_flightCategory_amended
      { icao := "KLAX", observed := "x", raw_text := "r", station := none, wind := none,
        visibility := none, ceiling := none, clouds := none, temperature := none,
        dewpoint := none, barometer := none, flight_category := some "LIFR", remarks := none }
      0 0).2.2 "LIFR" rfl (by decide)

/-- C9: for every observation timestamp string and every wall-clock time
the report age is non-negative; an unparsable timestamp yields age zero and
the `"Invalid Date"` sentinel from the time-string formatter; a parsable
timestamp yields the elapsed milliseconds divided by sixty thousand,
rounded to the nearest minute and floored at zero — in particular a future
timestamp (clock skew) still reports zero. -/
theorem calculateReportAge_spec :
    ∀ (s : String) (nowMs tzOffsetMinutes : ℤ),
      0 ≤ calculateReportAge s nowMs
    ∧ (jsParseDate (ensureUtcZ s) = none →
        calculateReportAge s nowMs = 0
        ∧ formatObservedTime s tzOffsetMinutes = "Invalid Date")
    ∧ (∀ observedMs : ℤ, jsParseDate (ensureUtcZ s) = some observedMs →
        calculateReportAge s nowMs
          = max 0 (jsRound (((nowMs - observedMs : ℤ) : ℚ) / (1000 * 60)))
        ∧ (nowMs ≤ observedMs → calculateReportAge s nowMs = 0)) := by
  intro s nowMs tz
  rcases h : jsParseDate (ensureUtcZ s) with _ | t
  · refine ⟨?_, fun _ => ⟨?_, ?_⟩, fun t' ht => Option.noConfusion ht⟩
    · simp [calculateReportAge, h]
    · simp [calculateReportAge, h]
    · simp [formatObservedTime, h]
  · refine ⟨?_, fun hn => Option.noConfusion hn, fun t' ht => ?_⟩
    · simp only [calculateReportAge, h]
      exact le_max_left _ _
    · have htt : t = t' := by injection ht
      subst htt
      refine ⟨by simp [calculateReportAge, h], fun hle => ?_⟩
      have hq : ((nowMs - t : ℤ) : ℚ) / (1000 * 60) ≤ 0 := by
        apply div_nonpos_of_nonpos_of_nonneg
        · exact_mod_cast sub_nonpos.mpr hle
        · norm_num
      have hr : jsRound (((nowMs - t : ℤ) : ℚ) / (1000 * 60)) ≤ 0 := by
        unfold jsRound
        calc ⌊((nowMs - t : ℤ) : ℚ) / (1000 * 60) + 1 / 2⌋
            ≤ ⌊(0 : ℚ) + 1 / 2⌋ := Int.floor_le_floor (by linarith)
          _ = 0 := by norm_num
      simp only [calculateReportAge, h]
      exact max_eq_left hr

/-- C9 witness: the unparsable string `"not-a-date"` gives age zero and the
`"Invalid Date"` sentinel, and the future timestamp `2024-01-01T00:00:00`
seen from a clock two hours earlier still gives age zero. -/
theorem calculateReportAge_spec_witness :
    (calculateReportAge "not-a-date" 1000 = 0
      ∧ formatObservedTime "not-a-date" (-420) = "Invalid Date")
  ∧ calculateReportAge "2024-01-01T00:00:00" 1704060000000 = 0 :=
  ⟨(calculateReportAge_spec "not-a-date" 1000 (-420)).2.1 (by decide),
   ((calculateReportAge_spec "2024-01-01T00:00:00" 1704060000000 0).2.2
      1704067200000 (by decide)).2 (by decide)⟩
